import Mathlib

/-!
Verification of the data-service / caching layer of the medical-telegram-warehouse
REST API (src/api/services/data_service.py, src/api/routes/channels.py,
src/api/routes/messages.py, src/api/routes/reports.py).

The Python code is shallowly embedded: SQLAlchemy rows become Lean structures,
the warehouse becomes lists of rows, SQL filters and joins become list
operations, Python floats become Rat, and the Redis cache becomes an explicit
key-to-entry store with expiry timestamps.  Python exceptions become Except,
and the dynamically typed values that flow between the cache and the service
methods (parsed JSON on a cache hit, pydantic model objects on a miss) become
the inductive type PyVal.
-/

set_option linter.unusedVariables false

namespace MedTelegram

/-! ## Warehouse rows (src/api/models.py)

Columns are modelled as non-nullable (the warehouse facts are produced by the
upstream ETL); dates and timestamps are modelled as natural-number day ordinals.
Calendar attributes of dim_dates that no embedded operation reads are omitted.
-/

/-- Row of marts.dim_channels (class Channel in src/api/models.py). -/
structure ChannelRow where
  channel_key : String
  channel_name : String
  channel_type : String
  first_post_date : Option Nat
  last_post_date : Option Nat
  total_posts : Int
  avg_views : Rat
  avg_forwards : Rat
  total_images : Int
  image_percentage : Rat
  activity_status : String
deriving DecidableEq, Repr

/-- Row of marts.fct_messages (class TelegramMessage in src/api/models.py). -/
structure MessageRow where
  message_key : String
  message_id : Int
  channel_key : String
  date_key : String
  message_text : String
  message_length : Int
  view_count : Int
  forward_count : Int
  has_image_flag : Bool
  detected_product_category : String
  engagement_score : Rat
  message_length_category : String
  loaded_at : Nat
deriving DecidableEq, Repr

/-- Row of marts.dim_dates (class DateDimension in src/api/models.py);
only the key and full_date are read by the embedded queries. -/
structure DateRow where
  date_key : String
  full_date : Nat
deriving DecidableEq, Repr

/-- Row of marts.fct_image_detections (class ImageDetection in
src/api/models.py); only the columns read by the embedded queries are kept. -/
structure DetectionRow where
  detection_key : String
  message_id : Int
  channel_key : String
  date_key : String
  detection_count : Int
  image_category : String
deriving DecidableEq, Repr

/-- The relational warehouse visible to the data service, together with
CURRENT_DATE (`today`) used by the trailing-window SQL filters. -/
structure Database where
  channels : List ChannelRow
  messages : List MessageRow
  dates : List DateRow
  detections : List DetectionRow
  today : Nat
deriving Repr

/-! ## Pydantic response models (src/api/schemas.py) -/

/-- ChannelResponse in src/api/schemas.py. -/
structure ChannelResponse where
  channel_name : String
  channel_type : String
  total_posts : Int
  avg_views : Rat
  channel_key : String
  first_post_date : Option Nat
  last_post_date : Option Nat
  image_percentage : Rat
  activity_status : String
deriving DecidableEq, Repr

/-- MessageResponse in src/api/schemas.py. -/
structure MessageResponse where
  message_id : Int
  message_text : String
  message_date : Nat
  channel_name : String
  view_count : Int
  forward_count : Int
  has_image : Bool
  message_length : Int
  engagement_score : Rat
deriving DecidableEq, Repr

/-- TopProduct in src/api/schemas.py. -/
structure TopProduct where
  product_name : String
  mention_count : Nat
  channels : List String
  avg_views : Rat
deriving DecidableEq, Repr

/-- SearchResponse in src/api/schemas.py. -/
structure SearchResponse where
  query : String
  total_results : Nat
  messages : List MessageResponse
  page : Nat
  total_pages : Nat
deriving DecidableEq, Repr

/-- fastapi.HTTPException, carrying the HTTP status code and a detail string. -/
structure HTTPException where
  status_code : Nat
  detail : String
deriving DecidableEq, Repr

/-- The field mapping applied by get_all_channels / get_channel_by_name in
src/api/services/data_service.py when it builds a ChannelResponse from a
Channel row. -/
def channelResponseOf (c : ChannelRow) : ChannelResponse :=
  { channel_key := c.channel_key
    channel_name := c.channel_name
    channel_type := c.channel_type
    first_post_date := c.first_post_date
    last_post_date := c.last_post_date
    total_posts := c.total_posts
    avg_views := c.avg_views
    image_percentage := c.image_percentage
    activity_status := c.activity_status }

/-! ## JSON / dynamic Python values

json.dumps and json.loads are modelled at the level of JSON parse trees rather
than character strings: a cache slot holds either a well-formed JSON document
(`RawVal.wellformed`) or arbitrary other bytes (`RawVal.junk`) on which
json.loads raises.  The serialized text of a well-formed JSON document is never
the empty string, so it is always truthy under the Python `if data:` test.
-/

/-- A JSON document, as produced by json.dumps and consumed by json.loads. -/
inductive JsonVal where
  | jnull
  | jbool (b : Bool)
  | jint (n : Int)
  | jrat (q : Rat)
  | jstr (s : String)
  | jlist (l : List JsonVal)

/-- A dynamically typed Python value as it flows through the data service:
plain JSON-native values, or the pydantic model objects that the service
builds on a cache miss. -/
inductive PyVal where
  | pnone
  | pbool (b : Bool)
  | pint (n : Int)
  | prat (q : Rat)
  | pstr (s : String)
  | plist (l : List PyVal)
  | pchannel (c : ChannelResponse)
  | pmessage (m : MessageResponse)
  | pproduct (p : TopProduct)

/-- Python truthiness (`if x:`) for the values the service tests. -/
def PyVal.isTruthy : PyVal → Bool
  | .pnone => false
  | .pbool b => b
  | .pint n => n != 0
  | .prat q => q != 0
  | .pstr s => !s.isEmpty
  | .plist l => !l.isEmpty
  | .pchannel _ => true
  | .pmessage _ => true
  | .pproduct _ => true

/-- Decimal rendering of a Rat, standing in for Python float formatting inside
str() renderings of pydantic models (the exact text is not load-bearing). -/
def ratPyStr (q : Rat) : String := toString q.num ++ "/" ++ toString q.den

/-- str() of an Option-typed field, as Python prints None. -/
def optNatPyStr : Option Nat → String
  | none => "None"
  | some n => toString n

/-- str() of a pydantic ChannelResponse, the value json.dumps(default=str)
substitutes for the non-JSON-serializable model object (pydantic renders a
model as a space-separated field=value line; exact formatting abstracted). -/
def channelPyStr (c : ChannelResponse) : String :=
  "channel_name=" ++ c.channel_name ++ " channel_type=" ++ c.channel_type ++
  " total_posts=" ++ toString c.total_posts ++ " avg_views=" ++ ratPyStr c.avg_views ++
  " channel_key=" ++ c.channel_key ++ " first_post_date=" ++ optNatPyStr c.first_post_date ++
  " last_post_date=" ++ optNatPyStr c.last_post_date ++
  " image_percentage=" ++ ratPyStr c.image_percentage ++
  " activity_status=" ++ c.activity_status

/-- str() of a pydantic MessageResponse (same convention as channelPyStr). -/
def messagePyStr (m : MessageResponse) : String :=
  "message_id=" ++ toString m.message_id ++ " message_text=" ++ m.message_text ++
  " message_date=" ++ toString m.message_date ++ " channel_name=" ++ m.channel_name ++
  " view_count=" ++ toString m.view_count ++ " forward_count=" ++ toString m.forward_count ++
  " message_length=" ++ toString m.message_length ++
  " engagement_score=" ++ ratPyStr m.engagement_score

/-- str() of a pydantic TopProduct (same convention as channelPyStr). -/
def productPyStr (p : TopProduct) : String :=
  "product_name=" ++ p.product_name ++ " mention_count=" ++ toString p.mention_count ++
  " avg_views=" ++ ratPyStr p.avg_views

mutual
/-- json.dumps(value, default=str) as used by DataService.set_cached: JSON-native
values serialize structurally; a pydantic model object is not JSON-serializable,
so default=str replaces it by its str() rendering, which serializes as a JSON
string. -/
def pyToJson : PyVal → JsonVal
  | .pnone => .jnull
  | .pbool b => .jbool b
  | .pint n => .jint n
  | .prat q => .jrat q
  | .pstr s => .jstr s
  | .plist l => .jlist (pyToJsonList l)
  | .pchannel c => .jstr (channelPyStr c)
  | .pmessage m => .jstr (messagePyStr m)
  | .pproduct p => .jstr (productPyStr p)

def pyToJsonList : List PyVal → List JsonVal
  | [] => []
  | v :: vs => pyToJson v :: pyToJsonList vs
end

mutual
/-- The Python value produced by json.loads on a well-formed JSON document. -/
def jsonToPy : JsonVal → PyVal
  | .jnull => .pnone
  | .jbool b => .pbool b
  | .jint n => .pint n
  | .jrat q => .prat q
  | .jstr s => .pstr s
  | .jlist l => .plist (jsonToPyList l)

def jsonToPyList : List JsonVal → List PyVal
  | [] => []
  | v :: vs => jsonToPy v :: jsonToPyList vs
end

mutual
/-- Whether a Python value consists only of JSON-native constructors, so that
json.loads inverts json.dumps on it (no default=str coercion involved). -/
def PyVal.jsonNative : PyVal → Bool
  | .pnone => true
  | .pbool _ => true
  | .pint _ => true
  | .prat _ => true
  | .pstr _ => true
  | .plist l => PyVal.jsonNativeList l
  | .pchannel _ => false
  | .pmessage _ => false
  | .pproduct _ => false

def PyVal.jsonNativeList : List PyVal → Bool
  | [] => true
  | v :: vs => PyVal.jsonNative v && PyVal.jsonNativeList vs
end

/-- The raw content of a cache slot: a well-formed serialized JSON document,
or other bytes (written by a different client) on which json.loads raises. -/
inductive RawVal where
  | junk (s : String)
  | wellformed (j : JsonVal)

/-- Python truthiness of the raw string redis.get returns: only the empty
string is falsy; the serialized text of a JSON document is never empty. -/
def RawVal.isTruthy : RawVal → Bool
  | .junk s => !s.isEmpty
  | .wellformed _ => true

/-- json.dumps(data, default=str) to raw cache bytes. -/
def json_dumps (v : PyVal) : RawVal := .wellformed (pyToJson v)

/-- json.loads on raw cache bytes; raises on non-JSON bytes. -/
def json_loads : RawVal → Except String PyVal
  | .junk _ => .error "json decode error"
  | .wellformed j => .ok (jsonToPy j)

/-! ## Redis cache backend (redis.asyncio client, as consumed by DataService) -/

/-- State of the external Redis store: an association list from key to
(raw value, expiry instant), the current time, and a flag modelling backend
unavailability (every call raises when set). -/
structure RedisState where
  failing : Bool
  now : Nat
  store : List (String × RawVal × Nat)

/-- Association-list lookup (first binding wins). -/
def assocFind {α : Type} (l : List (String × α)) (k : String) : Option α :=
  match l with
  | [] => none
  | (k1, v) :: rest => if k1 = k then some v else assocFind rest k

/-- redis.get: raises when the backend is unavailable; returns None for an
absent or expired key, the raw bytes otherwise. -/
def RedisState.get (st : RedisState) (key : String) : Except String (Option RawVal) :=
  if st.failing then .error "redis connection error"
  else
    match assocFind st.store key with
    | none => .ok none
    | some (v, exp) => if st.now < exp then .ok (some v) else .ok none

/-- redis.setex: raises when the backend is unavailable; otherwise stores the
value with expiry now + ttl. -/
def RedisState.setex (st : RedisState) (key : String) (ttl : Nat) (v : RawVal) :
    Except String RedisState :=
  if st.failing then .error "redis connection error"
  else .ok { st with store := (key, v, st.now + ttl) :: st.store }

/-! ## DataService cache-aside layer (src/api/services/data_service.py) -/

/-- DataService: a database session plus an optional Redis client. -/
structure DataService where
  db : Database
  redis : Option RedisState

/-- self.cache_ttl, set to 300 (5 minutes) in DataService.__init__. -/
def cache_ttl : Nat := 300

/-- DataService.get_cached: returns the parsed cached value, or None when the
cache is absent, the backend call raises, the raw value is falsy, or
json.loads raises.  The Python return type is Optional[Any] with None
overloaded as both the miss marker and the parsed JSON null, so the embedding
returns PyVal with PyVal.pnone on every miss path. -/
def get_cached (svc : DataService) (key : String) : PyVal :=
  match svc.redis with
  | none => .pnone
  | some redis =>
    match redis.get key with
    | .error _ => .pnone
    | .ok none => .pnone
    | .ok (some data) =>
      if data.isTruthy then
        match json_loads data with
        | .error _ => .pnone
        | .ok v => v
      else .pnone

/-- DataService.set_cached: serializes with json.dumps(data, default=str) and
stores under TTL self.cache_ttl; returns False (leaving the service state
unchanged) when the cache is absent or the backend call raises. -/
def set_cached (svc : DataService) (key : String) (data : PyVal) : Bool × DataService :=
  match svc.redis with
  | none => (false, svc)
  | some redis =>
    match redis.setex key cache_ttl (json_dumps data) with
    | .error _ => (false, svc)
    | .ok st => (true, { svc with redis := some st })

/-! ## String utilities

SQL ILIKE with a %query% pattern and Python `keyword in text.lower()` are both
case-insensitive substring tests; lowercasing is modelled on ASCII letters. -/

/-- ASCII lowercase of one character (str.lower / SQL lower, ASCII range). -/
def lowerChar (c : Char) : Char :=
  if 65 ≤ c.toNat ∧ c.toNat ≤ 90 then Char.ofNat (c.toNat + 32) else c

/-- ASCII lowercase of a string. -/
def lowerStr (s : String) : String := String.mk (s.toList.map lowerChar)

/-- Whether `pat` occurs at the start of `s` (character lists). -/
def charsStartWith : List Char → List Char → Bool
  | _, [] => true
  | [], _ :: _ => false
  | c :: cs, p :: ps => c = p && charsStartWith cs ps

/-- Whether `pat` occurs anywhere in `s` (character lists). -/
def charsContain : List Char → List Char → Bool
  | [], pat => pat.isEmpty
  | c :: cs, pat => charsStartWith (c :: cs) pat || charsContain cs pat

/-- Python `pat in s` substring test. -/
def strContains (s pat : String) : Bool := charsContain s.toList pat.toList

/-- SQL `message_text ILIKE concat percent query percent`: case-insensitive
substring match, as issued by DataService.search_messages. -/
def ilikeMatch (text query : String) : Bool := strContains (lowerStr text) (lowerStr query)

/-! ## Python truthiness of optional filter parameters -/

/-- Truthiness of an Optional[str]: None and the empty string are falsy. -/
def optStrTruthy : Option String → Bool
  | none => false
  | some s => !s.isEmpty

/-- Truthiness of an Optional[int]: None and 0 are falsy. -/
def optIntTruthy : Option Int → Bool
  | none => false
  | some n => n != 0

/-- f-string interpolation of an Optional[str] (None prints as None). -/
def optStrPyStr : Option String → String
  | none => "None"
  | some s => s

/-- f-string interpolation of an Optional[int]. -/
def optIntPyStr : Option Int → String
  | none => "None"
  | some n => toString n

/-- f-string interpolation of an Optional[date] (a date prints as its ordinal
here; the exact date format is not load-bearing). -/
def optDatePyStr : Option Nat → String
  | none => "None"
  | some n => toString n

/-- f-string interpolation of an Optional[bool]. -/
def optBoolPyStr : Option Bool → String
  | none => "None"
  | some true => "True"
  | some false => "False"

/-! ## Sorting

Python sorted(...) and SQL ORDER BY are stable; pySorted is a stable insertion
sort: an incoming element is placed after every already-placed element y with
le y x, so elements comparing equal keep their original relative order. -/

/-- Insert x after all elements y of an already sorted list with le y x. -/
def insertLe {α : Type} (le : α → α → Bool) (x : α) : List α → List α
  | [] => [x]
  | y :: ys => if le y x then y :: insertLe le x ys else x :: y :: ys

/-- Stable sort with respect to the boolean relation le. -/
def pySorted {α : Type} (le : α → α → Bool) (l : List α) : List α :=
  l.foldl (fun acc x => insertLe le x acc) []

/-! ## Query composition (DataService, src/api/services/data_service.py) -/

/-- A row of the three-way inner join
fct_messages JOIN dim_channels ON channel_key JOIN dim_dates ON date_key
used by search_messages and the report queries. -/
def joinedRows (db : Database) : List (MessageRow × ChannelRow × DateRow) :=
  db.messages.flatMap fun m =>
    (db.channels.filter fun c => c.channel_key = m.channel_key).flatMap fun c =>
      (db.dates.filter fun d => d.date_key = m.date_key).map fun d => (m, c, d)

/-- SQL `dd.full_date >= CURRENT_DATE - INTERVAL days` trailing-window test. -/
def inWindow (db : Database) (days : Nat) (d : DateRow) : Bool :=
  db.today - days ≤ d.full_date

/-- db.query(Channel).filter(Channel.channel_name == channel_name).first(). -/
def channelFirstByName (db : Database) (channel_name : String) : Option ChannelRow :=
  (db.channels.filter fun c => c.channel_name = channel_name).head?

/-- db.query(Channel).filter(Channel.channel_key == key).first(), used per
result row by search_messages to recover the channel name. -/
def channelFirstByKey (db : Database) (key : String) : Option ChannelRow :=
  (db.channels.filter fun c => c.channel_key = key).head?

/-- Message-text truncation in search_messages:
message_text[:500] + ellipsis if len(message_text) > 500 else message_text. -/
def truncateText (limit : Nat) (s : String) : String :=
  if s.length > limit then String.mk (s.toList.take limit) ++ "..." else s

/-- The MessageResponse built per row by DataService.search_messages
(message_date uses loaded_at as proxy, channel name falls back to Unknown). -/
def searchMessageResponse (db : Database) (msg : MessageRow) : MessageResponse :=
  { message_id := msg.message_id
    message_text := truncateText 500 msg.message_text
    message_date := msg.loaded_at
    channel_name := match channelFirstByKey db msg.channel_key with
                    | some c => c.channel_name
                    | none => "Unknown"
    view_count := msg.view_count
    forward_count := msg.forward_count
    has_image := msg.has_image_flag
    message_length := msg.message_length
    engagement_score := msg.engagement_score }

/-- The base query of DataService.search_messages: the three-way join filtered
by the case-insensitive substring match on message_text. -/
def searchBaseRows (db : Database) (query : String) : List (MessageRow × ChannelRow × DateRow) :=
  (joinedRows db).filter fun r => ilikeMatch r.1.message_text query

/-- The four optional conjunctive filters of DataService.search_messages, in
source order.  channel_name and min_views are guarded by Python truthiness
(`if channel_name:` / `if min_views:`), start_date and end_date by date-object
truthiness (a date is always truthy, so the guard is presence), has_images by
an explicit `is not None` test. -/
def applySearchFilters (rows : List (MessageRow × ChannelRow × DateRow))
    (channel_name : Option String) (start_date end_date : Option Nat)
    (has_images : Option Bool) (min_views : Option Int) :
    List (MessageRow × ChannelRow × DateRow) :=
  let rows1 := if optStrTruthy channel_name then
      rows.filter fun r => r.2.1.channel_name = channel_name.getD "" else rows
  let rows2 := match start_date with
    | some sd => rows1.filter fun r => sd ≤ r.2.2.full_date
    | none => rows1
  let rows3 := match end_date with
    | some ed => rows2.filter fun r => r.2.2.full_date ≤ ed
    | none => rows2
  let rows4 := match has_images with
    | some hi => rows3.filter fun r => r.1.has_image_flag = hi
    | none => rows3
  if optIntTruthy min_views then
    rows4.filter fun r => min_views.getD 0 ≤ r.1.view_count
  else rows4

/-- The database path of DataService.search_messages: join, filter, order by
view_count descending, truncate to the limit, shape each row. -/
def searchFresh (db : Database) (query : String) (channel_name : Option String)
    (start_date end_date : Option Nat) (has_images : Option Bool)
    (min_views : Option Int) (limit : Nat) : List MessageResponse :=
  let rows := applySearchFilters (searchBaseRows db query)
      channel_name start_date end_date has_images min_views
  ((pySorted (fun a b => decide (b.1.view_count ≤ a.1.view_count)) rows).take limit).map
    fun r => searchMessageResponse db r.1

/-- The f-string cache key of DataService.search_messages. -/
def searchCacheKey (query : String) (channel_name : Option String)
    (start_date end_date : Option Nat) (has_images : Option Bool)
    (min_views : Option Int) (limit : Nat) : String :=
  "search:" ++ query ++ ":" ++ optStrPyStr channel_name ++ ":" ++
  optDatePyStr start_date ++ ":" ++ optDatePyStr end_date ++ ":" ++
  optBoolPyStr has_images ++ ":" ++ optIntPyStr min_views ++ ":" ++ toString limit

/-- DataService.search_messages: cache-aside wrapper around searchFresh.  A
truthy cached value is returned as parsed (PyVal); otherwise the database
result is computed, cached, and returned. -/
def search_messages (svc : DataService) (query : String) (channel_name : Option String)
    (start_date end_date : Option Nat) (has_images : Option Bool)
    (min_views : Option Int) (limit : Nat) : PyVal × DataService :=
  let cache_key := searchCacheKey query channel_name start_date end_date has_images min_views limit
  let cached := get_cached svc cache_key
  if cached.isTruthy then (cached, svc)
  else
    let result := PyVal.plist ((searchFresh svc.db query channel_name start_date
        end_date has_images min_views limit).map PyVal.pmessage)
    let out := set_cached svc cache_key result
    (result, out.2)

/-- The database path of DataService.get_all_channels: all channels ordered by
total_posts descending, mapped to ChannelResponse. -/
def allChannelsFresh (db : Database) : List ChannelResponse :=
  (pySorted (fun a b => decide (b.total_posts ≤ a.total_posts)) db.channels).map
    channelResponseOf

/-- DataService.get_all_channels: cache-aside wrapper around allChannelsFresh
under the fixed key channels:all. -/
def get_all_channels (svc : DataService) : PyVal × DataService :=
  let cached := get_cached svc "channels:all"
  if cached.isTruthy then (cached, svc)
  else
    let result := PyVal.plist ((allChannelsFresh svc.db).map PyVal.pchannel)
    let out := set_cached svc "channels:all" result
    (result, out.2)

/-- DataService.get_channel_by_name: cache-aside lookup under key
channel:name; returns None (pnone) when the channel is absent, otherwise
builds the ChannelResponse, caches it and returns it.  On a cache hit the
parsed JSON value is returned as-is. -/
def get_channel_by_name (svc : DataService) (channel_name : String) : PyVal × DataService :=
  let cache_key := "channel:" ++ channel_name
  let cached := get_cached svc cache_key
  if cached.isTruthy then (cached, svc)
  else
    match channelFirstByName svc.db channel_name with
    | none => (PyVal.pnone, svc)
    | some channel =>
      let result := channelResponseOf channel
      let out := set_cached svc cache_key (PyVal.pchannel result)
      (PyVal.pchannel result, out.2)

/-! ## Top products aggregation (DataService.get_top_products) -/

/-- Python `x or 0` on an integer column value (identity on non-null ints,
kept to mirror the source expression `row with index 2 or 0`). -/
def pyIntOr0 (v : Int) : Int := if v = 0 then 0 else v

/-- Python sum() over a list of ints. -/
def sumInt (l : List Int) : Int := l.foldr (fun x acc => x + acc) 0

/-- The fixed product_keywords mapping of DataService.get_top_products, in
dict-literal order. -/
def product_keywords : List (String × List String) :=
  [("Paracetamol", ["paracetamol", "panadol", "acetaminophen"]),
   ("Amoxicillin", ["amoxicillin", "amoxil", "amoxycillin"]),
   ("Vitamin C", ["vitamin c", "ascorbic acid"]),
   ("Antibiotics", ["antibiotic", "antibiotics", "amoxicillin", "azithromycin"]),
   ("Pain Relief", ["pain", "relief", "analgesic"]),
   ("Cough Syrup", ["cough", "syrup", "expectorant"]),
   ("Antiseptic", ["antiseptic", "disinfectant", "dettol"]),
   ("Skin Cream", ["cream", "ointment", "lotion", "moisturizer"]),
   ("Supplements", ["supplement", "vitamin", "mineral"]),
   ("Medical Equipment", ["mask", "gloves", "thermometer"])]

/-- The three dicts accumulated by the counting loop of get_top_products.
Python dicts preserve insertion order, so each is an association list updated
in place with new keys appended at the end; the channel set is a list with
set-insertion (append if absent). -/
structure ProductAgg where
  product_counts : List (String × Nat)
  product_channels : List (String × List String)
  product_views : List (String × List Int)
deriving DecidableEq, Repr

/-- product_counts[product] = product_counts.get(product, 0) + 1
(ordered-dict update: in-place bump, new key appended). -/
def bumpCount (l : List (String × Nat)) (k : String) : List (String × Nat) :=
  match l with
  | [] => [(k, 1)]
  | (k1, v) :: rest => if k1 = k then (k1, v + 1) :: rest else (k1, v) :: bumpCount rest k

/-- product_channels.setdefault-style set insertion of channel_name. -/
def addChannel (l : List (String × List String)) (k : String) (channel : String) :
    List (String × List String) :=
  match l with
  | [] => [(k, [channel])]
  | (k1, s) :: rest =>
    if k1 = k then (k1, if channel ∈ s then s else s ++ [channel]) :: rest
    else (k1, s) :: addChannel rest k channel

/-- product_views[product].append(views) with default empty list. -/
def addView (l : List (String × List Int)) (k : String) (views : Int) :
    List (String × List Int) :=
  match l with
  | [] => [(k, [views])]
  | (k1, s) :: rest =>
    if k1 = k then (k1, s ++ [views]) :: rest else (k1, s) :: addView rest k views

/-- One product iteration of the counting loop: the inner keyword loop updates
the three dicts on the first matching keyword and then breaks, so a row
contributes one update per product exactly when some keyword of that product
occurs in the lowered message text.  The row is (lowered text, channel, views). -/
def matchStep (row : String × String × Int) (acc : ProductAgg) (pk : String × List String) :
    ProductAgg :=
  if pk.2.any (fun keyword => strContains row.1 keyword) then
    { product_counts := bumpCount acc.product_counts pk.1
      product_channels := addChannel acc.product_channels pk.1 row.2.1
      product_views := addView acc.product_views pk.1 row.2.2 }
  else acc

/-- One message row of the counting loop: lowercase the text (the source does
this once per row), apply `views = row or 0`, and fold over product_keywords. -/
def processRow (acc : ProductAgg) (row : String × String × Int) : ProductAgg :=
  product_keywords.foldl (matchStep (lowerStr row.1, row.2.1, pyIntOr0 row.2.2)) acc

/-- The full counting loop of get_top_products over the fetched rows. -/
def countProducts (rows : List (String × String × Int)) : ProductAgg :=
  rows.foldl processRow { product_counts := [], product_channels := [], product_views := [] }

/-- The SQL of get_top_products: recent-window join rows projected to
(message_text, channel_name, view_count), LIMIT 1000. -/
def topProductsRows (db : Database) (days : Nat) : List (String × String × Int) :=
  (((joinedRows db).filter fun r => inWindow db days r.2.2).map
    fun r => (r.1.message_text, r.2.1.channel_name, r.1.view_count)).take 1000

/-- The database path of DataService.get_top_products: count mentions, sort by
mention count descending (Python sorted is stable, so ties keep dict insertion
order), take the top limit, and shape each entry; avg_views divides
sum(views, default list [0]) by max(len(views, default list [1]), 1), and the
channel set is listed and capped at 5. -/
def topProductsFresh (db : Database) (limit : Nat) (days : Nat) : List TopProduct :=
  let agg := countProducts (topProductsRows db days)
  let sorted := pySorted (fun a b => decide (b.2 ≤ a.2)) agg.product_counts
  (sorted.take limit).map fun pc =>
    let viewsNum := (assocFind agg.product_views pc.1).getD [0]
    let viewsDen := (assocFind agg.product_views pc.1).getD [1]
    { product_name := pc.1
      mention_count := pc.2
      channels := ((assocFind agg.product_channels pc.1).getD []).take 5
      avg_views := ((sumInt viewsNum : Int) : Rat) / ((max viewsDen.length 1 : Nat) : Rat) }

/-- DataService.get_top_products: cache-aside wrapper around topProductsFresh. -/
def get_top_products (svc : DataService) (limit : Nat) (days : Nat) : PyVal × DataService :=
  let cache_key := "top_products:" ++ toString limit ++ ":" ++ toString days ++ "d"
  let cached := get_cached svc cache_key
  if cached.isTruthy then (cached, svc)
  else
    let result := PyVal.plist ((topProductsFresh svc.db limit days).map PyVal.pproduct)
    let out := set_cached svc cache_key result
    (result, out.2)

/-! ## Daily trends (get_daily_trends in src/api/routes/reports.py) -/

/-- GROUP BY dd.full_date ORDER BY dd.full_date (ascending): one output row
per distinct date among the input rows, aggregating the projected values. -/
def groupByDate (rows : List (Nat × Int)) : List (Nat × Int) :=
  (pySorted (fun a b => decide (a ≤ b)) (rows.map Prod.fst).dedup).map
    fun d => (d, sumInt ((rows.filter fun r => r.1 = d).map Prod.snd))

/-- fct_image_detections JOIN dim_dates ON date_key. -/
def detectionDateRows (db : Database) : List (DetectionRow × DateRow) :=
  db.detections.flatMap fun f =>
    (db.dates.filter fun d => d.date_key = f.date_key).map fun d => (f, d)

/-- The messages metric: COUNT(message_key) per date in the window. -/
def trendMessages (db : Database) (days : Nat) : List (Nat × Int) :=
  groupByDate (((joinedRows db).filter fun r => inWindow db days r.2.2).map
    fun r => (r.2.2.full_date, 1))

/-- The views metric: SUM(view_count) per date in the window. -/
def trendViews (db : Database) (days : Nat) : List (Nat × Int) :=
  groupByDate (((joinedRows db).filter fun r => inWindow db days r.2.2).map
    fun r => (r.2.2.full_date, r.1.view_count))

/-- The forwards metric: SUM(forward_count) per date in the window. -/
def trendForwards (db : Database) (days : Nat) : List (Nat × Int) :=
  groupByDate (((joinedRows db).filter fun r => inWindow db days r.2.2).map
    fun r => (r.2.2.full_date, r.1.forward_count))

/-- The images metric: COUNT(detection_key) per date in the window. -/
def trendImages (db : Database) (days : Nat) : List (Nat × Int) :=
  groupByDate (((detectionDateRows db).filter fun r => inWindow db days r.2).map
    fun r => (r.2.full_date, 1))

/-- Python str() of a date value in the response shaping (format abstracted). -/
def dateStr (d : Nat) : String := toString d

/-- The response body of the daily-trends route. -/
structure TrendsResult where
  metric : String
  days : Nat
  data : List (String × Int)
deriving DecidableEq, Repr

/-- The try-block of get_daily_trends in src/api/routes/reports.py: dispatch on
the metric name, raising HTTPException(400, Invalid metric) on the final else;
each data point is (str(date), value or 0). -/
def get_daily_trends_try (db : Database) (metric : String) (days : Nat) :
    Except HTTPException TrendsResult :=
  if metric = "messages" then
    .ok { metric := metric, days := days,
          data := (trendMessages db days).map fun r => (dateStr r.1, pyIntOr0 r.2) }
  else if metric = "views" then
    .ok { metric := metric, days := days,
          data := (trendViews db days).map fun r => (dateStr r.1, pyIntOr0 r.2) }
  else if metric = "forwards" then
    .ok { metric := metric, days := days,
          data := (trendForwards db days).map fun r => (dateStr r.1, pyIntOr0 r.2) }
  else if metric = "images" then
    .ok { metric := metric, days := days,
          data := (trendImages db days).map fun r => (dateStr r.1, pyIntOr0 r.2) }
  else .error { status_code := 400, detail := "Invalid metric" }

/-- Python str(e) applied to a caught HTTPException. -/
def exceptionStr (e : HTTPException) : String := toString e.status_code ++ ": " ++ e.detail

/-- The full get_daily_trends handler.  Its only handler is
`except Exception as e: raise HTTPException(500, str(e))`, and
fastapi.HTTPException is a subclass of Exception, so every exception raised in
the try-block — including the deliberate 400 for an invalid metric — is caught
and re-raised with status 500.  (The channel and message routes add an
`except HTTPException: raise` clause for exactly this reason; this route does
not.) -/
def get_daily_trends (db : Database) (metric : String) (days : Nat) :
    Except HTTPException TrendsResult :=
  match get_daily_trends_try db metric days with
  | .ok r => .ok r
  | .error e => .error { status_code := 500, detail := exceptionStr e }

/-! ## Channel comparison (compare_channel in src/api/routes/channels.py) -/

/-- The metrics dict computed by compare_channel: for total_posts and
avg_views the four entries channel1 / channel2 / difference /
percentage_difference, with the percentage denominator guarded by max(x, 1);
for image_percentage only the three entries without a percentage. -/
def compare_metrics (channel1 channel2 : ChannelResponse) :
    List (String × List (String × Rat)) :=
  [("total_posts",
     [("channel1", (channel1.total_posts : Rat)),
      ("channel2", (channel2.total_posts : Rat)),
      ("difference", ((channel1.total_posts - channel2.total_posts : Int) : Rat)),
      ("percentage_difference",
        ((channel1.total_posts - channel2.total_posts : Int) : Rat) /
          ((max channel2.total_posts 1 : Int) : Rat) * 100)]),
   ("avg_views",
     [("channel1", channel1.avg_views),
      ("channel2", channel2.avg_views),
      ("difference", channel1.avg_views - channel2.avg_views),
      ("percentage_difference",
        (channel1.avg_views - channel2.avg_views) / max channel2.avg_views 1 * 100)]),
   ("image_percentage",
     [("channel1", channel1.image_percentage),
      ("channel2", channel2.image_percentage),
      ("difference", channel1.image_percentage - channel2.image_percentage)])]

/-- Division that signals a zero denominator instead of computing. -/
def checkedDiv (a b : Rat) : Option Rat := if b = 0 then none else some (a / b)

/-- compare_metrics with every division site routed through checkedDiv: the
result is none exactly when some division in the comparison would divide by
zero. -/
def compare_metrics_checked (channel1 channel2 : ChannelResponse) :
    Option (List (String × List (String × Rat))) :=
  match checkedDiv ((channel1.total_posts - channel2.total_posts : Int) : Rat)
          ((max channel2.total_posts 1 : Int) : Rat),
        checkedDiv (channel1.avg_views - channel2.avg_views) (max channel2.avg_views 1) with
  | some q1, some q2 =>
    some [("total_posts",
            [("channel1", (channel1.total_posts : Rat)),
             ("channel2", (channel2.total_posts : Rat)),
             ("difference", ((channel1.total_posts - channel2.total_posts : Int) : Rat)),
             ("percentage_difference", q1 * 100)]),
          ("avg_views",
            [("channel1", channel1.avg_views),
             ("channel2", channel2.avg_views),
             ("difference", channel1.avg_views - channel2.avg_views),
             ("percentage_difference", q2 * 100)]),
          ("image_percentage",
            [("channel1", channel1.image_percentage),
             ("channel2", channel2.image_percentage),
             ("difference", channel1.image_percentage - channel2.image_percentage)])]
  | _, _ => none

/-- The compare_channel route on the uncached lookup path (get_channel_by_name
with no cache backend): 404 when either channel is absent, otherwise the
metrics dict. -/
def compare_channel (db : Database) (channel_name compare_with : String) :
    Except HTTPException (List (String × List (String × Rat))) :=
  match channelFirstByName db channel_name with
  | none => .error { status_code := 404, detail := "Channel not found" }
  | some c1 =>
    match channelFirstByName db compare_with with
    | none => .error { status_code := 404, detail := "Channel not found" }
    | some c2 => .ok (compare_metrics (channelResponseOf c1) (channelResponseOf c2))

/-! ## Route-level filtering and response shaping -/

/-- The filter chain of get_all_channels in src/api/routes/channels.py, applied
to the service result: channel_type and min_posts are guarded by Python
truthiness (`if channel_type:` / `if min_posts:`), active_only by its boolean. -/
def routeFilterChannels (channels : List ChannelResponse) (channel_type : Option String)
    (min_posts : Option Int) (active_only : Bool) : List ChannelResponse :=
  let fc := channels
  let fc := if optStrTruthy channel_type then
      fc.filter fun c => c.channel_type = channel_type.getD "" else fc
  let fc := if optIntTruthy min_posts then
      fc.filter fun c => min_posts.getD 0 ≤ c.total_posts else fc
  if active_only then fc.filter fun c => c.activity_status = "Active" else fc

/-- FastAPI response_model validation of the dynamically typed service result
against List[MessageResponse]: succeeds only when every element is a
MessageResponse object. -/
def pyMessagesOf : List PyVal → Option (List MessageResponse)
  | [] => some []
  | .pmessage m :: rest => (pyMessagesOf rest).map fun l => m :: l
  | _ :: _ => none

/-- The search_messages route in src/api/routes/messages.py: calls the service
(the computed pagination offset is unused, per the source comment), then shapes
SearchResponse with total_results = len(messages) and
total_pages = max(1, (len(messages) + limit - 1) // limit).  A service result
that fails response_model validation surfaces as a server error. -/
def route_search_messages (svc : DataService) (query : String) (channel_name : Option String)
    (start_date end_date : Option Nat) (has_images : Option Bool) (min_views : Option Int)
    (page : Nat) (limit : Nat) : Except HTTPException SearchResponse :=
  let out := search_messages svc query channel_name start_date end_date has_images min_views limit
  match out.1 with
  | .plist l =>
    match pyMessagesOf l with
    | some msgs =>
      .ok { query := query, total_results := msgs.length, messages := msgs,
            page := page, total_pages := max 1 ((msgs.length + limit - 1) / limit) }
    | none => .error { status_code := 500, detail := "response validation error" }
  | _ => .error { status_code := 500, detail := "response validation error" }

/-! ## Concrete example data -/

/-- Example channel A (nonzero metrics). -/
def exChanA : ChannelRow :=
  { channel_key := "ckA"
    channel_name := "chanA"
    channel_type := "Pharmaceutical"
    first_post_date := some 90
    last_post_date := some 100
    total_posts := 10
    avg_views := 50
    avg_forwards := 5
    total_images := 3
    image_percentage := 30
    activity_status := "Active" }

/-- Example channel B (all denominator metrics zero). -/
def exChanB : ChannelRow :=
  { channel_key := "ckB"
    channel_name := "chanB"
    channel_type := "Medical"
    first_post_date := none
    last_post_date := none
    total_posts := 0
    avg_views := 0
    avg_forwards := 0
    total_images := 0
    image_percentage := 0
    activity_status := "Inactive" }

/-- Example warehouse with two channels and no messages. -/
def exDb : Database :=
  { channels := [exChanA, exChanB], messages := [], dates := [], detections := [], today := 100 }

/-- An empty, healthy Redis backend at time 0. -/
def exRedis : RedisState := { failing := false, now := 0, store := [] }

/-! ## Serialization round trip -/

mutual
/-- json.loads inverts json.dumps on JSON-native values. -/
theorem jsonToPy_pyToJson : ∀ (v : PyVal), PyVal.jsonNative v = true → jsonToPy (pyToJson v) = v
  | .pnone, _ => rfl
  | .pbool _, _ => rfl
  | .pint _, _ => rfl
  | .prat _, _ => rfl
  | .pstr _, _ => rfl
  | .plist l, h => by
      have h2 : PyVal.jsonNativeList l = true := h
      simp only [pyToJson, jsonToPy]
      exact congrArg PyVal.plist (jsonToPyList_pyToJsonList l h2)

theorem jsonToPyList_pyToJsonList : ∀ (l : List PyVal), PyVal.jsonNativeList l = true →
    jsonToPyList (pyToJsonList l) = l
  | [], _ => rfl
  | v :: vs, h => by
      have h1 : PyVal.jsonNative v = true ∧ PyVal.jsonNativeList vs = true := by
        simpa [PyVal.jsonNativeList, Bool.and_eq_true] using h
      simp only [pyToJsonList, jsonToPyList]
      rw [jsonToPy_pyToJson v h1.1, jsonToPyList_pyToJsonList vs h1.2]
end

/-! ## C1 -/

/-- C1: the claim says a daily-trends request with a metric outside
messages/views/forwards/images fails with InvalidArgument mapped to status
400, not 500.  The code raises HTTPException(400) inside a try-block whose
only handler is `except Exception`, which catches the HTTPException (a
subclass of Exception) and re-raises it with status 500, so the request in
fact fails with a 500.  This theorem evaluates the handler at the failing
input metric bogus. -/
theorem C1_daily_trends_invalid_metric_yields_500 :
    get_daily_trends exDb "bogus" 30 =
      .error { status_code := 500,
               detail := exceptionStr { status_code := 400, detail := "Invalid metric" } } := by
  rfl

/-! ## C5 and C6 -/

/-- Whether metric `name` of a comparison result carries both an absolute and
a percentage difference (the property claimed for all three metrics). -/
def hasBothDiffs (m : List (String × List (String × Rat))) (name : String) : Bool :=
  match assocFind m name with
  | none => false
  | some entries =>
    (assocFind entries "difference").isSome && (assocFind entries "percentage_difference").isSome

/-- Projection of an Except to its ok value. -/
def exceptOk {ε α : Type} : Except ε α → Option α
  | .ok a => some a
  | .error _ => none

/-- C5 counterexample: comparing the two existing channels chanA and chanB,
the image_percentage metric of the response carries no percentage_difference
entry, refuting the claim that both difference kinds are returned for each of
the three metrics. -/
theorem C5_counterexample_image_percentage_has_no_percentage :
    (exceptOk (compare_channel exDb "chanA" "chanB")).map
        (fun m => hasBothDiffs m "image_percentage") = some false := by
  rfl

/-- C5 (amended): the comparison returns absolute and percentage differences
for total posts and average views, but only the absolute difference for image
percentage (no percentage_difference entry for that metric). -/
theorem C5_amended_differences_per_metric (c1 c2 : ChannelResponse) :
    hasBothDiffs (compare_metrics c1 c2) "total_posts" = true
  ∧ hasBothDiffs (compare_metrics c1 c2) "avg_views" = true
  ∧ (assocFind (compare_metrics c1 c2) "image_percentage").map
      (fun entries => ((assocFind entries "difference").isSome,
                       (assocFind entries "percentage_difference").isSome)) =
      some (true, false) := by
  exact ⟨rfl, rfl, rfl⟩

/-- C6: the percentage-difference computation of the channel comparison never
divides by zero: with every division site routed through checkedDiv (which
signals a zero denominator), the comparison always succeeds and agrees with
the unchecked computation, because each denominator is max(x, 1) ≥ 1. -/
theorem C6_comparison_never_divides_by_zero (c1 c2 : ChannelResponse) :
    compare_metrics_checked c1 c2 = some (compare_metrics c1 c2) := by
  have h1 : ((max c2.total_posts 1 : Int) : Rat) ≠ 0 := by
    have : (1 : Int) ≤ max c2.total_posts 1 := le_max_right _ _
    exact_mod_cast (by omega : (max c2.total_posts 1 : Int) ≠ 0)
  have h2 : max c2.avg_views 1 ≠ 0 :=
    ne_of_gt (lt_of_lt_of_le one_pos (le_max_right c2.avg_views 1))
  simp only [compare_metrics_checked, checkedDiv, if_neg h1, if_neg h2, compare_metrics]

/-! ## C2 -/

/-- C2: the cache-aside contract of get_cached / set_cached.  get returns the
parsed cached value when the key is present, unexpired and well-formed (and in
particular returns exactly the value previously set, for JSON-native values,
within the TTL), and returns None — never a raised error — when the cache is
absent, the backend raises, the entry is expired, or deserialization fails;
set serializes via json.dumps and stores with TTL 300 seconds, and swallows
backend failures, returning False with the service state unchanged. -/
theorem C2_cache_aside_fail_open_contract :
    (∀ (db : Database) (key : String), get_cached { db := db, redis := none } key = PyVal.pnone)
  ∧ (∀ (svc : DataService) (r : RedisState) (key : String),
      svc.redis = some r → r.failing = true → get_cached svc key = PyVal.pnone)
  ∧ (∀ (svc : DataService) (r : RedisState) (key s : String) (exp : Nat),
      svc.redis = some r → assocFind r.store key = some (RawVal.junk s, exp) →
      get_cached svc key = PyVal.pnone)
  ∧ (∀ (svc : DataService) (r : RedisState) (key : String) (v : RawVal) (exp : Nat),
      svc.redis = some r → assocFind r.store key = some (v, exp) → exp ≤ r.now →
      get_cached svc key = PyVal.pnone)
  ∧ (∀ (svc : DataService) (r : RedisState) (key : String) (j : JsonVal) (exp : Nat),
      svc.redis = some r → r.failing = false →
      assocFind r.store key = some (RawVal.wellformed j, exp) → r.now < exp →
      get_cached svc key = jsonToPy j)
  ∧ (∀ (svc : DataService) (r : RedisState) (key : String) (v : PyVal),
      svc.redis = some r → r.failing = false → PyVal.jsonNative v = true →
      get_cached (set_cached svc key v).2 key = v)
  ∧ (∀ (svc : DataService) (r : RedisState) (key : String) (v : PyVal),
      svc.redis = some r → r.failing = false →
      (set_cached svc key v).2.redis =
        some { r with store := (key, json_dumps v, r.now + 300) :: r.store })
  ∧ (∀ (svc : DataService) (r : RedisState) (key : String) (v : PyVal),
      svc.redis = some r → r.failing = true → set_cached svc key v = (false, svc))
  ∧ (∀ (db : Database) (key : String) (v : PyVal),
      set_cached { db := db, redis := none } key v = (false, { db := db, redis := none })) := by
  refine ⟨fun db key => rfl, ?_, ?_, ?_, ?_, ?_, ?_, ?_, fun db key v => rfl⟩
  · intro svc r key h hf
    simp [get_cached, h, RedisState.get, hf]
  · intro svc r key s exp h hfind
    by_cases hf : r.failing
    · simp [get_cached, h, RedisState.get, hf]
    · by_cases hlt : r.now < exp
      · simp only [get_cached, h, RedisState.get, hf, if_false, hfind, if_pos hlt,
          Bool.false_eq_true, RawVal.isTruthy, json_loads]
        split <;> rfl
      · simp [get_cached, h, RedisState.get, hf, hfind, hlt]
  · intro svc r key v exp h hfind hle
    by_cases hf : r.failing
    · simp [get_cached, h, RedisState.get, hf]
    · simp [get_cached, h, RedisState.get, hf, hfind, Nat.not_lt.mpr hle]
  · intro svc r key j exp h hf hfind hlt
    simp [get_cached, h, RedisState.get, hf, hfind, hlt, RawVal.isTruthy, json_loads]
  · intro svc r key v h hf hn
    have hstep : (set_cached svc key v).2 =
        { svc with redis := some { r with store := (key, json_dumps v, r.now + cache_ttl) :: r.store } } := by
      simp [set_cached, h, RedisState.setex, hf]
    rw [hstep]
    have hlt : r.now < r.now + cache_ttl := by simp [cache_ttl]
    simp [get_cached, RedisState.get, hf, assocFind, hlt, RawVal.isTruthy, json_dumps,
      json_loads, jsonToPy_pyToJson v hn]
  · intro svc r key v h hf
    simp [set_cached, h, RedisState.setex, hf, cache_ttl]
  · intro svc r key v h hf
    simp [set_cached, h, RedisState.setex, hf]

/-- A live Redis state with a junk entry, an expired entry and a live entry. -/
def redisC2 : RedisState :=
  { failing := false
    now := 10
    store := [("kjunk", RawVal.junk "nonsense", 100),
              ("kexpired", RawVal.wellformed (JsonVal.jint 5), 10),
              ("klive", RawVal.wellformed (JsonVal.jint 7), 100)] }

/-- An unavailable Redis backend. -/
def redisC2down : RedisState := { failing := true, now := 10, store := [] }

/-- Service over redisC2. -/
def svcC2 : DataService := { db := exDb, redis := some redisC2 }

/-- Service over redisC2down. -/
def svcC2down : DataService := { db := exDb, redis := some redisC2down }

/-- C2 witness: every hypothesis of the contract discharged at concrete
inputs. -/
theorem C2_cache_aside_fail_open_contract_witness :
    get_cached { db := exDb, redis := none } "k" = PyVal.pnone
  ∧ get_cached svcC2down "k" = PyVal.pnone
  ∧ get_cached svcC2 "kjunk" = PyVal.pnone
  ∧ get_cached svcC2 "kexpired" = PyVal.pnone
  ∧ get_cached svcC2 "klive" = jsonToPy (JsonVal.jint 7)
  ∧ get_cached (set_cached svcC2 "knew" (PyVal.plist [PyVal.pint 3])).2 "knew" =
      PyVal.plist [PyVal.pint 3]
  ∧ (set_cached svcC2 "knew" (PyVal.plist [PyVal.pint 3])).2.redis =
      some { redisC2 with
             store := ("knew", json_dumps (PyVal.plist [PyVal.pint 3]), redisC2.now + 300) ::
               redisC2.store }
  ∧ set_cached svcC2down "k" (PyVal.pint 1) = (false, svcC2down)
  ∧ set_cached { db := exDb, redis := none } "k" (PyVal.pint 1) =
      (false, { db := exDb, redis := none }) :=
  ⟨C2_cache_aside_fail_open_contract.1 exDb "k",
   C2_cache_aside_fail_open_contract.2.1 svcC2down redisC2down "k" rfl rfl,
   C2_cache_aside_fail_open_contract.2.2.1 svcC2 redisC2 "kjunk" "nonsense" 100 rfl rfl,
   C2_cache_aside_fail_open_contract.2.2.2.1 svcC2 redisC2 "kexpired"
     (RawVal.wellformed (JsonVal.jint 5)) 10 rfl rfl (le_refl 10),
   C2_cache_aside_fail_open_contract.2.2.2.2.1 svcC2 redisC2 "klive" (JsonVal.jint 7) 100
     rfl rfl rfl (by decide),
   C2_cache_aside_fail_open_contract.2.2.2.2.2.1 svcC2 redisC2 "knew"
     (PyVal.plist [PyVal.pint 3]) rfl rfl rfl,
   C2_cache_aside_fail_open_contract.2.2.2.2.2.2.1 svcC2 redisC2 "knew"
     (PyVal.plist [PyVal.pint 3]) rfl rfl,
   C2_cache_aside_fail_open_contract.2.2.2.2.2.2.2.1 svcC2down redisC2down "k"
     (PyVal.pint 1) rfl rfl,
   C2_cache_aside_fail_open_contract.2.2.2.2.2.2.2.2 exDb "k" (PyVal.pint 1)⟩

/-! ## C3 -/

/-- The mention count recorded for product p (0 when absent). -/
def countOf (l : List (String × Nat)) (p : String) : Nat := (assocFind l p).getD 0

theorem countOf_bumpCount (l : List (String × Nat)) (k p : String) :
    countOf (bumpCount l k) p = if p = k then countOf l p + 1 else countOf l p := by
  induction l with
  | nil =>
    by_cases hp : p = k
    · subst hp; simp [bumpCount, countOf, assocFind]
    · simp [bumpCount, countOf, assocFind, hp, Ne.symm hp]
  | cons hd tl ih =>
    obtain ⟨k1, v⟩ := hd
    by_cases h1 : k1 = k
    · subst h1
      by_cases hp : p = k1
      · subst hp; simp [bumpCount, countOf, assocFind]
      · simp [bumpCount, countOf, assocFind, hp, Ne.symm hp]
    · by_cases hp : k1 = p
      · subst hp
        simp [bumpCount, countOf, assocFind, h1]
      · simp only [bumpCount, if_neg h1, countOf, assocFind, if_neg hp]
        exact ih

theorem countOf_matchStep_le (row : String × String × Int) (acc : ProductAgg)
    (pk : String × List String) (p : String) :
    countOf (matchStep row acc pk).product_counts p ≤
      countOf acc.product_counts p + (if p = pk.1 then 1 else 0) := by
  unfold matchStep
  split
  · simp only [countOf_bumpCount]
    by_cases hp : p = pk.1 <;> simp [hp]
  · split <;> omega

theorem countOf_foldl_matchStep_le (row : String × String × Int) (p : String) :
    ∀ (pks : List (String × List String)) (acc : ProductAgg),
      countOf (pks.foldl (matchStep row) acc).product_counts p ≤
        countOf acc.product_counts p + (pks.map Prod.fst).count p := by
  intro pks
  induction pks with
  | nil => intro acc; simp
  | cons pk rest ih =>
    intro acc
    have h1 := countOf_matchStep_le row acc pk p
    have h2 := ih (matchStep row acc pk)
    simp only [List.foldl_cons, List.map_cons, List.count_cons]
    by_cases hp : p = pk.1
    · subst hp
      simp only [if_pos rfl] at h1
      simp only [beq_self_eq_true, if_pos] at h1 ⊢
      omega
    · simp only [if_neg hp] at h1
      simp only [beq_iff_eq, if_neg hp] at h1 ⊢
      omega

theorem countOf_processRow_le (acc : ProductAgg) (row : String × String × Int) (p : String) :
    countOf (processRow acc row).product_counts p ≤ countOf acc.product_counts p + 1 := by
  have h := countOf_foldl_matchStep_le (lowerStr row.1, row.2.1, pyIntOr0 row.2.2) p
      product_keywords acc
  have hc : ((product_keywords.map Prod.fst).count p) ≤ 1 :=
    List.nodup_iff_count_le_one.mp (by decide) p
  unfold processRow
  omega

theorem countOf_countProducts_le (rows : List (String × String × Int)) (p : String) :
    countOf (countProducts rows).product_counts p ≤ rows.length := by
  suffices h : ∀ acc, countOf (rows.foldl processRow acc).product_counts p ≤
      countOf acc.product_counts p + rows.length by
    have h0 := h { product_counts := [], product_channels := [], product_views := [] }
    simpa [countProducts, countOf, assocFind] using h0
  induction rows with
  | nil => intro acc; simp
  | cons r rest ih =>
    intro acc
    have h1 := countOf_processRow_le acc r p
    have h2 := ih (processRow acc r)
    simp only [List.foldl_cons, List.length_cons]
    omega

/-- C3: in the top-products counting loop a message contributes at most one
mention to each product, even when several of the product's keywords occur in
its text (the inner keyword loop breaks on the first match): processing one
row raises any product's count by at most one, hence over any row-set a
product's mention count is bounded by the number of rows; concretely, a single
message containing two Paracetamol keywords contributes exactly one mention. -/
theorem C3_message_contributes_at_most_once :
    (∀ (acc : ProductAgg) (row : String × String × Int) (p : String),
        countOf (processRow acc row).product_counts p ≤ countOf acc.product_counts p + 1)
  ∧ (∀ (rows : List (String × String × Int)) (p : String),
        countOf (countProducts rows).product_counts p ≤ rows.length)
  ∧ countOf (countProducts [("paracetamol panadol", "c", 5)]).product_counts "Paracetamol" = 1 :=
  ⟨countOf_processRow_le, countOf_countProducts_le, by decide⟩

/-! ## C4 -/

/-- A message whose text contains paracetamol, parameterized by key, channel
key and view count. -/
def msgC4 (k : String) (ck : String) (views : Int) : MessageRow :=
  { message_key := k
    message_id := 1
    channel_key := ck
    date_key := "d1"
    message_text := "paracetamol"
    message_length := 11
    view_count := views
    forward_count := 0
    has_image_flag := false
    detected_product_category := "none"
    engagement_score := 0
    message_length_category := "short"
    loaded_at := 100 }

/-- The C4 row-set: three paracetamol messages with views 100, 200, 300 from
channels chanA, chanB, chanA, all inside the 30-day window. -/
def dbC4 : Database :=
  { channels := [exChanA, exChanB]
    messages := [msgC4 "m1" "ckA" 100, msgC4 "m2" "ckB" 200, msgC4 "m3" "ckA" 300]
    dates := [{ date_key := "d1", full_date := 100 }]
    detections := []
    today := 100 }

/-- Service over dbC4 with no cache backend. -/
def svcC4 : DataService := { db := dbC4, redis := none }

/-- The expected single top product of the C4 example. -/
def tpC4 : TopProduct :=
  { product_name := "Paracetamol"
    mention_count := 3
    channels := ["chanA", "chanB"]
    avg_views := 200 }

/-- C4: on the 3-message paracetamol row-set with views 100/200/300 from
channels chanA/chanB/chanA, get_top_products(limit 1, days 30) returns exactly
the product Paracetamol with mention_count 3, channel set equal to the
two-element set of chanA and chanB, and avg_views 200. -/
theorem C4_top_products_paracetamol_example :
    ∃ tp : TopProduct, (get_top_products svcC4 1 30).1 = PyVal.plist [PyVal.pproduct tp]
      ∧ tp.product_name = "Paracetamol" ∧ tp.mention_count = 3
      ∧ tp.channels.toFinset = ({"chanA", "chanB"} : Finset String)
      ∧ tp.avg_views = 200 := by
  have hagg : countProducts (topProductsRows dbC4 30) =
      { product_counts := [("Paracetamol", 3)]
        product_channels := [("Paracetamol", ["chanA", "chanB"])]
        product_views := [("Paracetamol", [100, 200, 300])] } := by decide
  have hfresh : topProductsFresh dbC4 1 30 = [tpC4] := by
    simp only [topProductsFresh, hagg]
    simp [pySorted, insertLe, assocFind, tpC4]
    norm_num [sumInt]
  have hmain : (get_top_products svcC4 1 30).1 = PyVal.plist [PyVal.pproduct tpC4] := by
    simp [get_top_products, svcC4, get_cached, set_cached, PyVal.isTruthy, hfresh]
  exact ⟨tpC4, hmain, rfl, rfl, by decide, rfl⟩

/-! ## C7 -/

theorem fst_mem_of_mem_joinedRows {db : Database} {r : MessageRow × ChannelRow × DateRow}
    (h : r ∈ joinedRows db) : r.1 ∈ db.messages := by
  simp only [joinedRows, List.mem_flatMap, List.mem_map, List.mem_filter] at h
  obtain ⟨m, hm, c, hc, d, hd, heq⟩ := h
  rw [← heq]
  exact hm

theorem searchBaseRows_eq_nil {db : Database} {query : String}
    (h : ∀ m ∈ db.messages, ilikeMatch m.message_text query = false) :
    searchBaseRows db query = [] := by
  refine List.filter_eq_nil_iff.mpr ?_
  intro r hr
  simp [h r.1 (fst_mem_of_mem_joinedRows hr)]

theorem applySearchFilters_nil (cn : Option String) (sd ed : Option Nat)
    (hi : Option Bool) (mv : Option Int) :
    applySearchFilters [] cn sd ed hi mv = [] := by
  cases sd <;> cases ed <;> cases hi <;> simp [applySearchFilters, ite_self]

/-- C7: a search whose query matches no stored message text returns, through
the route, an empty message list with total_results 0 and no error (the
service is taken with no cache backend, so the result reflects the database
query rather than an unrelated cached entry). -/
theorem C7_search_no_match_returns_empty_ok (db : Database) (query : String)
    (cn : Option String) (sd ed : Option Nat) (hi : Option Bool) (mv : Option Int)
    (page limit : Nat)
    (hnomatch : ∀ m ∈ db.messages, ilikeMatch m.message_text query = false)
    (hlim : 1 ≤ limit) :
    route_search_messages { db := db, redis := none } query cn sd ed hi mv page limit =
      .ok { query := query, total_results := 0, messages := [], page := page,
            total_pages := 1 } := by
  have hbase := searchBaseRows_eq_nil hnomatch
  have hfresh : searchFresh db query cn sd ed hi mv limit = [] := by
    simp [searchFresh, hbase, applySearchFilters_nil, pySorted]
  have hsvc : (search_messages { db := db, redis := none } query cn sd ed hi mv limit).1 =
      PyVal.plist [] := by
    simp [search_messages, get_cached, set_cached, PyVal.isTruthy, hfresh]
  have hpages : (limit - 1) / limit = 0 := Nat.div_eq_of_lt (by omega)
  simp [route_search_messages, hsvc, pyMessagesOf, hpages]

/-- C7 witness at the concrete query xyz-not-present over exDb. -/
theorem C7_search_no_match_returns_empty_ok_witness :
    route_search_messages { db := exDb, redis := none } "xyz-not-present" none none none none
        none 1 20 =
      .ok { query := "xyz-not-present", total_results := 0, messages := [], page := 1,
            total_pages := 1 } :=
  C7_search_no_match_returns_empty_ok exDb "xyz-not-present" none none none none none 1 20
    (by decide) (by decide)

/-! ## C8 -/

set_option maxRecDepth 40000 in
/-- C8: the claim says two consecutive lookups of the same channel name return
bit-identical results, including when the second is served from the cache.  In
the code the first (uncached) call returns the ChannelResponse object and
caches it with json.dumps(result, default=str); since a pydantic model is not
JSON-serializable, default=str stores its str() rendering as a JSON string, so
the second call — a cache hit — returns that plain string instead of the
object (which the declared response_model would then reject).  This theorem
evaluates both consecutive calls at a concrete failing input: the first
returns the model object, the second returns its string rendering, and the
two results differ. -/
theorem C8_cached_channel_lookup_not_bit_identical :
    ((get_channel_by_name { db := exDb, redis := some exRedis } "chanA").1 =
        PyVal.pchannel (channelResponseOf exChanA))
  ∧ ((get_channel_by_name
        (get_channel_by_name { db := exDb, redis := some exRedis } "chanA").2 "chanA").1 =
        PyVal.pstr (channelPyStr (channelResponseOf exChanA)))
  ∧ (get_channel_by_name { db := exDb, redis := some exRedis } "chanA").1 ≠
      (get_channel_by_name
        (get_channel_by_name { db := exDb, redis := some exRedis } "chanA").2 "chanA").1 := by
  have h1 : (get_channel_by_name { db := exDb, redis := some exRedis } "chanA").1 =
      PyVal.pchannel (channelResponseOf exChanA) := rfl
  have h2 : (get_channel_by_name
      (get_channel_by_name { db := exDb, redis := some exRedis } "chanA").2 "chanA").1 =
      PyVal.pstr (channelPyStr (channelResponseOf exChanA)) := rfl
  exact ⟨h1, h2, by rw [h1, h2]; simp⟩

/-! ## C9 -/

/-- C9: a falsy value is never served from the cache.  get_cached returns None
when the raw backend value is the (falsy) empty string, and the read
operations test the parsed cached value with `if cached:`, so a cached empty
list is treated as a miss: get_all_channels and search_messages then return
exactly what they return with no cache backend at all, recomputed from the
database. -/
theorem C9_falsy_cached_value_treated_as_miss :
    (∀ (db : Database) (r : RedisState) (key : String) (exp : Nat),
        r.failing = false → assocFind r.store key = some (RawVal.junk "", exp) →
        get_cached { db := db, redis := some r } key = PyVal.pnone)
  ∧ (∀ (svc : DataService),
        get_cached svc "channels:all" = PyVal.plist [] →
        (get_all_channels svc).1 = (get_all_channels { db := svc.db, redis := none }).1)
  ∧ (∀ (svc : DataService) (query : String) (cn : Option String) (sd ed : Option Nat)
        (hi : Option Bool) (mv : Option Int) (limit : Nat),
        get_cached svc (searchCacheKey query cn sd ed hi mv limit) = PyVal.plist [] →
        (search_messages svc query cn sd ed hi mv limit).1 =
          (search_messages { db := svc.db, redis := none } query cn sd ed hi mv limit).1) := by
  refine ⟨?_, ?_, ?_⟩
  · intro db r key exp hf hfind
    by_cases hlt : r.now < exp <;>
      simp [get_cached, RedisState.get, hf, hfind, hlt, RawVal.isTruthy, json_loads]
  · intro svc hc
    simp only [get_all_channels, hc]
    simp [get_cached, set_cached, PyVal.isTruthy]
  · intro svc query cn sd ed hi mv limit hc
    simp only [search_messages, hc]
    simp [get_cached, set_cached, PyVal.isTruthy]

/-- A live cache backend holding a falsy empty-list entry for channels:all, a
falsy raw empty-string entry, and an empty-list entry for a search key. -/
def redisC9 : RedisState :=
  { failing := false
    now := 0
    store := [("channels:all", RawVal.wellformed (JsonVal.jlist []), 100),
              ("junkkey", RawVal.junk "", 100),
              (searchCacheKey "q" none none none none none 20,
                RawVal.wellformed (JsonVal.jlist []), 100)] }

/-- Service over redisC9. -/
def svcC9 : DataService := { db := exDb, redis := some redisC9 }

/-- C9 witness: the three hypotheses discharged at concrete cache contents. -/
theorem C9_falsy_cached_value_treated_as_miss_witness :
    get_cached svcC9 "junkkey" = PyVal.pnone
  ∧ (get_all_channels svcC9).1 = (get_all_channels { db := svcC9.db, redis := none }).1
  ∧ (search_messages svcC9 "q" none none none none none 20).1 =
      (search_messages { db := svcC9.db, redis := none } "q" none none none none none 20).1 :=
  ⟨C9_falsy_cached_value_treated_as_miss.1 exDb redisC9 "junkkey" 100 rfl rfl,
   C9_falsy_cached_value_treated_as_miss.2.1 svcC9 rfl,
   C9_falsy_cached_value_treated_as_miss.2.2 svcC9 "q" none none none none none 20 rfl⟩

/-! ## C10 -/

/-- C10: passing 0 for a minimum-threshold filter behaves as if the filter
were unset, because both are guarded by Python truthiness rather than a None
check: search_messages with min_views 0 produces exactly the result it
produces with min_views absent (with no cache backend, so cache-key spelling
cannot distinguish the two calls), and the channel-listing route filter with
min_posts 0 equals the filter with min_posts absent. -/
theorem C10_zero_threshold_behaves_as_unset :
    (∀ (db : Database) (query : String) (cn : Option String) (sd ed : Option Nat)
        (hi : Option Bool) (limit : Nat),
        search_messages { db := db, redis := none } query cn sd ed hi (some 0) limit =
          search_messages { db := db, redis := none } query cn sd ed hi none limit)
  ∧ (∀ (channels : List ChannelResponse) (ct : Option String) (ao : Bool),
        routeFilterChannels channels ct (some 0) ao = routeFilterChannels channels ct none ao) := by
  constructor
  · intro db query cn sd ed hi limit
    have hf : ∀ rows, applySearchFilters rows cn sd ed hi (some 0) =
        applySearchFilters rows cn sd ed hi none := by
      intro rows
      simp [applySearchFilters, optIntTruthy]
    simp [search_messages, get_cached, set_cached, searchFresh, hf]
  · intro channels ct ao
    simp [routeFilterChannels, optIntTruthy]

end MedTelegram
